import Mathlib

/-!
Shallow embedding of the clinic front-desk queueing application (src/app.py):
the visit lifecycle and room/doctor assignment scheduler.

Modelling conventions:
* Database rows become Lean structures; the three SQLAlchemy tables (`User`,
  `Patient`, `Visit`) become lists inside a `ClinicState`.
* All enumerated columns are `String`s, exactly as in the source
  (`status` ∈ {"online", "away"} for users, {"queued", "waiting",
  "in_consultation", "completed", "cancelled"} for visits, `role` ∈
  {"doctor", "nurse"}, rooms are the strings "1".."10").
* A request handler becomes a function `ClinicState → args → ClinicState ×
  Option OpError`: the returned state is the state persisted after the
  request (an uncommitted ORM mutation is rolled back at request teardown
  by flask_sqlalchemy, so a handler that returns before `db.session.commit()`
  leaves the persisted state unchanged).
* The Flask session cookie is modelled as a `Session` value (user id, role)
  passed explicitly.
* Timestamps are abstract `Nat` counters; fresh primary keys are passed as
  explicit arguments.
-/

namespace Clinic

/-- Row of the `User` table (doctors and nurses). `room` is the nullable
`room` column, `status` the presence column defaulting to "away". -/
structure User where
  id : Nat
  name : String
  role : String
  status : String
  room : Option String
  deriving DecidableEq

/-- Row of the `Patient` table. `age` is a string column in the source. -/
structure Patient where
  id : Nat
  ic_number : String
  name : String
  age : String
  deriving DecidableEq

/-- Row of the `Visit` table. `doctor_id` and `room` are nullable;
`soap_note` is the nullable note column; `timestamp` is the creation time. -/
structure Visit where
  id : Nat
  patient_id : Nat
  doctor_id : Option Nat
  timestamp : Nat
  symptoms : String
  soap_note : Option String
  status : String
  room : Option String
  deriving DecidableEq

/-- The persisted database state: the three tables, in row (primary key)
order, matching the order SQLite returns rows for unordered queries. -/
structure ClinicState where
  users : List User
  patients : List Patient
  visits : List Visit
  deriving DecidableEq

/-- The authenticated caller, as stored in the Flask session cookie. -/
structure Session where
  user_id : Nat
  role : String
  deriving DecidableEq

/-- Structured failures surfaced by the handlers (flash messages, 403/404
responses). `room_conflict` is the "Room X is occupied" login failure. -/
inductive OpError where
  | unauthorized
  | not_found
  | room_conflict
  deriving DecidableEq

/-- `User.query.get(uid)`: primary-key lookup. -/
def findUserById (st : ClinicState) (uid : Nat) : Option User :=
  st.users.find? fun u => decide (u.id = uid)

/-- `Patient.query.filter_by(ic_number=ic).first()`. -/
def findPatientByIC (st : ClinicState) (ic : String) : Option Patient :=
  st.patients.find? fun p => decide (p.ic_number = ic)

/-- `Visit.query.get(vid)`: primary-key lookup. -/
def findVisit (st : ClinicState) (vid : Nat) : Option Visit :=
  st.visits.find? fun v => decide (v.id = vid)

/-- Apply an update to the user row with primary key `uid`. -/
def setUser (st : ClinicState) (uid : Nat) (f : User → User) : ClinicState :=
  { st with users := st.users.map fun u => if u.id = uid then f u else u }

/-- Apply an update to the visit row with primary key `vid`. -/
def updateVisit (st : ClinicState) (vid : Nat) (f : Visit → Visit) : ClinicState :=
  { st with visits := st.visits.map fun v => if v.id = vid then f v else v }

/-- `User.query.filter_by(role='doctor', room=room_num, status='online').first()`
is some row: the room is claimed by an online doctor. -/
def roomHasOnlineDoctor (st : ClinicState) (room_num : String) : Bool :=
  st.users.any fun u =>
    decide (u.role = "doctor") && decide (u.room = some room_num) &&
      decide (u.status = "online")

/-- `Visit.query.filter(Visit.room == room_num, Visit.status == "in_consultation").first()`
is some row. -/
def roomHasActiveConsultation (st : ClinicState) (room_num : String) : Bool :=
  st.visits.any fun v =>
    decide (v.room = some room_num) && decide (v.status = "in_consultation")

/-- Loop body of `find_available_room`: the room has an online doctor and no
active (in_consultation) visit. Waiting visits do NOT disqualify a room
("Allow adding to queue even if there is a waiting patient"). -/
def roomAvailable (st : ClinicState) (room_num : String) : Bool :=
  roomHasOnlineDoctor st room_num && !roomHasActiveConsultation st room_num

/-- The rooms scanned by the nurse dashboard: `str(r) for r in range(1, 11)`. -/
def roomNumbers : List String :=
  (List.range' 1 10).map fun r => toString r

/-- `find_available_room` (src/app.py lines 230-246): scan rooms "1".."10"
in order and return the first with an online doctor and no in_consultation
visit; `None` when no such room exists. -/
def find_available_room (st : ClinicState) : Option String :=
  roomNumbers.find? (roomAvailable st)

/-- Number of Waiting visits routed to a room (the spec's `waitingCount`;
the source never computes this). -/
def waitingCount (st : ClinicState) (room_num : String) : Nat :=
  (st.visits.filter fun v =>
    decide (v.room = some room_num) && decide (v.status = "waiting")).length

/-- Number of visits in a room whose status is waiting or in_consultation
(the occupancy the spec's room invariant bounds). -/
def activeInRoom (st : ClinicState) (room_num : String) : Nat :=
  (st.visits.filter fun v =>
    decide (v.room = some room_num) &&
      (decide (v.status = "waiting") || decide (v.status = "in_consultation"))).length

/-- Number of in_consultation visits in a room. -/
def inConsultInRoom (st : ClinicState) (room_num : String) : Nat :=
  (st.visits.filter fun v =>
    decide (v.room = some room_num) && decide (v.status = "in_consultation")).length

/-- Doctor branch of `login` (src/app.py lines 191-200), entered after the
credential and role checks succeed for the doctor with id `uid`.
The source sets `user.status = "online"` BEFORE running the occupant query;
SQLAlchemy autoflush makes that pending write visible to the query, hence
the query runs over `pending`. On the conflict branch the handler returns
without committing, so the persisted state stays `st` (teardown rollback).
An absent or empty room field is `none`. -/
def login_doctor (st : ClinicState) (uid : Nat) (selected_room : Option String) :
    ClinicState × Option OpError :=
  let pending := setUser st uid fun u => { u with status := "online" }
  match selected_room with
  | none => (pending, none)
  | some r =>
    match pending.users.find? (fun u =>
        decide (u.room = some r) && decide (u.role = "doctor") &&
          decide (u.status = "online")) with
    | some occupant =>
      if occupant.id ≠ uid then (st, some .room_conflict)
      else (setUser pending uid fun u => { u with room := some r }, none)
    | none => (setUser pending uid fun u => { u with room := some r }, none)

/-- `logout` (src/app.py lines 207-216): a doctor is set away and their
room is cleared; any other user's row is untouched. -/
def logout (st : ClinicState) (uid : Nat) : ClinicState :=
  match findUserById st uid with
  | some user =>
    if user.role = "doctor" then
      setUser st uid fun u => { u with status := "away", room := none }
    else st
  | none => st

/-- `toggle_status` (src/app.py lines 460-467): a doctor's presence is set
to the requested string (default "away"); the claimed room is NOT cleared. -/
def toggle_status (st : ClinicState) (sess : Session) (requested : String) :
    ClinicState × Option OpError :=
  if sess.role ≠ "doctor" then (st, some .unauthorized)
  else (setUser st sess.user_id fun u => { u with status := requested }, none)

/-- Core of the nurse `add_existing_to_queue` action (src/app.py lines
284-304), also the shared tail of `register_new`: pick a room, create the
visit Waiting-with-room or Queued-without. -/
def add_existing_to_queue (st : ClinicState) (pid : Nat) (symptom : String)
    (vid now : Nat) : ClinicState :=
  let assigned_room := find_available_room st
  let visit_status := if assigned_room.isSome then "waiting" else "queued"
  { st with visits := st.visits ++
      [⟨vid, pid, none, now, symptom, none, visit_status, assigned_room⟩] }

/-- Nurse `register_new` action (src/app.py lines 248-276): duplicate IC is
rejected with no change; otherwise the patient row is inserted (flushed)
and then a visit is created exactly as in `add_existing_to_queue`. -/
def register_new (st : ClinicState) (name ic age symptom : String)
    (pid vid now : Nat) : ClinicState :=
  if (findPatientByIC st ic).isSome then st
  else
    add_existing_to_queue
      { st with patients := st.patients ++ [⟨pid, ic, name, age⟩] }
      pid symptom vid now

/-- `start_consultation` (src/app.py lines 470-481): a non-doctor session is
redirected (no change); a missing visit 404s; otherwise the handler sets
ONLY `visit.doctor_id` — it performs no room-ownership check against the
presence registry and does not change `visit.status`. -/
def start_consultation (st : ClinicState) (sess : Session) (vid : Nat) :
    ClinicState × Option OpError :=
  if sess.role ≠ "doctor" then (st, some .unauthorized)
  else
    match findVisit st vid with
    | none => (st, some .not_found)
    | some _ =>
      (updateVisit st vid fun v => { v with doctor_id := some sess.user_id }, none)

/-- `save_consultation` (src/app.py lines 545-569), non-demo path: a missing
visit 404s; otherwise the note is stored unconditionally and, when the
action is "finalize", the status is set to "completed" — with no check of
the visit's current status. -/
def save_consultation (st : ClinicState) (vid : Nat) (note : Option String)
    (action : String) : ClinicState × Option OpError :=
  match findVisit st vid with
  | none => (st, some .not_found)
  | some _ =>
    (updateVisit st vid fun v =>
      { v with soap_note := note,
               status := if action = "finalize" then "completed" else v.status },
     none)

/-- `update_patient` (src/app.py lines 402-409): look the patient up by IC
(404 when absent) and overwrite only `name` and `age`. -/
def update_patient (st : ClinicState) (ic name age : String) :
    ClinicState × Option OpError :=
  match findPatientByIC st ic with
  | none => (st, some .not_found)
  | some _ =>
    ({ st with patients := st.patients.map fun p =>
        if p.ic_number = ic then { p with name := name, age := age } else p },
     none)

/-- `delete_patient` (src/app.py lines 412-419): delete the patient's visits,
then the patient row found by IC. -/
def delete_patient (st : ClinicState) (ic : String) :
    ClinicState × Option OpError :=
  match findPatientByIC st ic with
  | none => (st, some .not_found)
  | some p =>
    ({ st with
        visits := st.visits.filter fun v => decide (v.patient_id ≠ p.id),
        patients := st.patients.filter fun q => decide (q.id ≠ p.id) },
     none)

/-- One row of the JSON array returned by `get_patient_history`. -/
structure HistoryEntry where
  id : Nat
  timestamp : Nat
  symptoms : String
  status : String
  note : String
  deriving DecidableEq

/-- `p.visits`: the relationship collection, i.e. all visits whose
`patient_id` is `pid`. -/
def patientVisits (st : ClinicState) (pid : Nat) : List Visit :=
  st.visits.filter fun v => decide (v.patient_id = pid)

/-- `get_patient_history` (src/app.py lines 572-588): an unknown IC returns
the empty list (not a 404); otherwise one entry per visit of the patient,
reversed. `v.soap_note or "No notes"` maps a null or empty note to
"No notes". -/
def get_patient_history (st : ClinicState) (ic : String) : List HistoryEntry :=
  match findPatientByIC st ic with
  | none => []
  | some p =>
    ((patientVisits st p.id).map fun v =>
      ⟨v.id, v.timestamp, v.symptoms, v.status,
        match v.soap_note with
        | none => "No notes"
        | some s => if s = "" then "No notes" else s⟩).reverse

/-- One transition per exposed handler, with arbitrary request arguments.
The persisted state after the request is the first component of each
handler's result (unchanged on the error paths). -/
inductive Step : ClinicState → ClinicState → Prop where
  | login (st : ClinicState) (uid : Nat) (r : Option String) :
      Step st (login_doctor st uid r).1
  | logout_step (st : ClinicState) (uid : Nat) :
      Step st (logout st uid)
  | toggle (st : ClinicState) (sess : Session) (requested : String) :
      Step st (toggle_status st sess requested).1
  | reg_new (st : ClinicState) (name ic age symptom : String) (pid vid now : Nat) :
      Step st (register_new st name ic age symptom pid vid now)
  | reg_existing (st : ClinicState) (pid : Nat) (symptom : String) (vid now : Nat) :
      Step st (add_existing_to_queue st pid symptom vid now)
  | start (st : ClinicState) (sess : Session) (vid : Nat) :
      Step st (start_consultation st sess vid).1
  | save (st : ClinicState) (vid : Nat) (note : Option String) (action : String) :
      Step st (save_consultation st vid note action).1
  | upd_patient (st : ClinicState) (ic name age : String) :
      Step st (update_patient st ic name age).1
  | del_patient (st : ClinicState) (ic : String) :
      Step st (delete_patient st ic).1

/-- Reachability by a sequence of exposed operations. -/
def Reachable (s₀ s : ClinicState) : Prop :=
  Relation.ReflTransGen Step s₀ s

/-! ### General helper lemmas -/

/-- `List.find?` over `range'` returns the least element satisfying the
predicate: the witness is in range, satisfies `q`, and every smaller
in-range element fails `q`. -/
theorem find?_range'_eq_some {q : Nat → Bool} {s n m : Nat}
    (h : (List.range' s n).find? q = some m) :
    q m = true ∧ m ∈ List.range' s n ∧
      ∀ k, k ∈ List.range' s n → k < m → q k = false := by
  induction n generalizing s with
  | zero => simp at h
  | succ n ih =>
    rw [List.range'_succ] at h
    by_cases hq : q s
    · rw [List.find?_cons_of_pos _ hq] at h
      obtain rfl := Option.some.inj h
      refine ⟨hq, by simp [List.range'_succ], ?_⟩
      intro k hk hkm
      rw [List.range'_succ] at hk
      rcases List.mem_cons.mp hk with rfl | hk'
      · omega
      · have := (List.mem_range'_1.mp hk').1
        omega
    · rw [List.find?_cons_of_neg _ hq] at h
      obtain ⟨h1, h2, h3⟩ := ih h
      refine ⟨h1, ?_, ?_⟩
      · rw [List.range'_succ]
        exact List.mem_cons_of_mem _ h2
      · intro k hk hkm
        rw [List.range'_succ] at hk
        rcases List.mem_cons.mp hk with rfl | hk'
        · exact Bool.eq_false_iff.mpr hq
        · exact h3 k hk' hkm

/-- `find_available_room` through the numeric room list: it is the mapped
`find?` over `range' 1 10`. -/
theorem find_available_room_eq_map (st : ClinicState) :
    find_available_room st =
      ((List.range' 1 10).find? fun r => roomAvailable st (toString r)).map
        (fun r => toString r) := by
  unfold find_available_room roomNumbers
  rw [List.find?_map]
  rfl

/-- Primary-key lookup after `updateVisit` at the same key yields the
updated row, provided the update preserves the key. -/
theorem findVisit_updateVisit {st : ClinicState} {vid : Nat} {v : Visit}
    (f : Visit → Visit) (hf : ∀ w, (f w).id = w.id)
    (h : findVisit st vid = some v) :
    findVisit (updateVisit st vid f) vid = some (f v) := by
  unfold findVisit updateVisit at *
  have hv : v.id = vid := by
    have := List.find?_some h
    simpa using this
  have hcomp : ((fun w : Visit => decide (w.id = vid)) ∘
      fun w => if w.id = vid then f w else w) = fun w : Visit => decide (w.id = vid) := by
    funext w
    by_cases hw : w.id = vid <;> simp [hw, hf]
  rw [List.find?_map, hcomp, h]
  simp [hv]

/-! ### Frame lemmas: which tables each handler touches -/

theorem login_doctor_visits (st : ClinicState) (uid : Nat) (r : Option String) :
    (login_doctor st uid r).1.visits = st.visits := by
  unfold login_doctor
  cases r with
  | none => rfl
  | some r =>
    dsimp only
    split
    · split <;> rfl
    · rfl

theorem logout_visits (st : ClinicState) (uid : Nat) :
    (logout st uid).visits = st.visits := by
  unfold logout
  split
  · split <;> rfl
  · rfl

theorem toggle_status_visits (st : ClinicState) (sess : Session) (requested : String) :
    (toggle_status st sess requested).1.visits = st.visits := by
  unfold toggle_status
  split <;> rfl

theorem update_patient_visits (st : ClinicState) (ic name age : String) :
    (update_patient st ic name age).1.visits = st.visits := by
  unfold update_patient
  split <;> rfl

/-! ### The in_consultation status is never produced by any handler -/

/-- No visit in the state has status "in_consultation". -/
def NoInConsult (st : ClinicState) : Prop :=
  ∀ v ∈ st.visits, v.status ≠ "in_consultation"

theorem noInConsult_add_existing {st : ClinicState} (h : NoInConsult st)
    (pid : Nat) (symptom : String) (vid now : Nat) :
    NoInConsult (add_existing_to_queue st pid symptom vid now) := by
  intro v hv
  unfold add_existing_to_queue at hv
  simp only [List.mem_append, List.mem_singleton] at hv
  rcases hv with hv | rfl
  · exact h v hv
  · dsimp only
    cases (find_available_room st).isSome <;> simp

theorem noInConsult_register_new {st : ClinicState} (h : NoInConsult st)
    (name ic age symptom : String) (pid vid now : Nat) :
    NoInConsult (register_new st name ic age symptom pid vid now) := by
  unfold register_new
  split
  · exact h
  · apply noInConsult_add_existing
    exact h

theorem noInConsult_start {st : ClinicState} (h : NoInConsult st)
    (sess : Session) (vid : Nat) :
    NoInConsult (start_consultation st sess vid).1 := by
  unfold start_consultation
  split
  · exact h
  · split
    · exact h
    · intro v hv
      unfold updateVisit at hv
      simp only [List.mem_map] at hv
      obtain ⟨w, hw, rfl⟩ := hv
      by_cases hid : w.id = vid <;> simp [hid] <;> exact h w hw

theorem noInConsult_save {st : ClinicState} (h : NoInConsult st)
    (vid : Nat) (note : Option String) (action : String) :
    NoInConsult (save_consultation st vid note action).1 := by
  unfold save_consultation
  split
  · exact h
  · intro v hv
    unfold updateVisit at hv
    simp only [List.mem_map] at hv
    obtain ⟨w, hw, rfl⟩ := hv
    by_cases hid : w.id = vid
    · simp only [hid, if_true]
      by_cases hact : action = "finalize" <;> simp [hact]
      exact h w hw
    · simp only [hid, if_false]
      exact h w hw

theorem noInConsult_delete {st : ClinicState} (h : NoInConsult st) (ic : String) :
    NoInConsult (delete_patient st ic).1 := by
  unfold delete_patient
  split
  · exact h
  · intro v hv
    simp only [List.mem_filter] at hv
    exact h v hv.1

/-- Every exposed operation preserves the absence of in_consultation
visits: no handler ever writes that status. -/
theorem step_preserves_noInConsult {s t : ClinicState}
    (hst : Step s t) (h : NoInConsult s) : NoInConsult t := by
  cases hst with
  | login uid r =>
    intro v hv
    rw [login_doctor_visits] at hv
    exact h v hv
  | logout_step uid =>
    intro v hv
    rw [logout_visits] at hv
    exact h v hv
  | toggle sess requested =>
    intro v hv
    rw [toggle_status_visits] at hv
    exact h v hv
  | reg_new name ic age symptom pid vid now =>
    exact noInConsult_register_new h name ic age symptom pid vid now
  | reg_existing pid symptom vid now =>
    exact noInConsult_add_existing h pid symptom vid now
  | start sess vid => exact noInConsult_start h sess vid
  | save vid note action => exact noInConsult_save h vid note action
  | upd_patient ic name age =>
    intro v hv
    rw [update_patient_visits] at hv
    exact h v hv
  | del_patient ic => exact noInConsult_delete h ic

/-- From a visit-free initial state, every reachable state is free of
in_consultation visits. -/
theorem reachable_noInConsult {s₀ s : ClinicState} (h0 : s₀.visits = [])
    (h : Reachable s₀ s) : NoInConsult s := by
  induction h with
  | refl =>
    intro v hv
    rw [h0] at hv
    simp at hv
  | tail _ hstep ih => exact step_preserves_noInConsult hstep ih

/-! ### Claim C2 -/

/-- Concrete run refuting the spec's room-occupancy invariant: one doctor,
one nurse, no visits. -/
def c2Init : ClinicState :=
  ⟨[⟨1, "Dr A", "doctor", "away", none⟩, ⟨2, "Nurse", "nurse", "away", none⟩], [], []⟩

/-- After the doctor logs in claiming room "1". -/
def c2Mid1 : ClinicState := (login_doctor c2Init 1 (some "1")).1

/-- After the nurse registers a new patient (routed Waiting to room "1"). -/
def c2Mid2 : ClinicState := register_new c2Mid1 "Alice" "IC1" "30" "cough" 1 1 0

/-- After the nurse queues the same patient again: a second Waiting visit is
routed to room "1", because `find_available_room` only excludes rooms with
an in_consultation visit, not rooms that already hold a Waiting visit. -/
def c2Bad : ClinicState := add_existing_to_queue c2Mid2 1 "cough again" 2 1

/-- C2 counterexample: a state reachable from a visit-free initial state by
exposed operations (doctor login, two registrations) in which room "1"
holds TWO visits with status in {waiting, in_consultation}, refuting the
at-most-one-per-room invariant. -/
theorem c2_counterexample :
    c2Init.visits = [] ∧ Reachable c2Init c2Bad ∧ ¬ activeInRoom c2Bad "1" ≤ 1 := by
  refine ⟨rfl, ?_, by decide⟩
  have h1 : Step c2Init c2Mid1 := Step.login c2Init 1 (some "1")
  have h2 : Step c2Mid1 c2Mid2 := Step.reg_new c2Mid1 "Alice" "IC1" "30" "cough" 1 1 0
  have h3 : Step c2Mid2 c2Bad := Step.reg_existing c2Mid2 1 "cough again" 2 1
  exact Relation.ReflTransGen.tail
    (Relation.ReflTransGen.tail (Relation.ReflTransGen.single h1) h2) h3

/-- C2 (amended): in every state reachable from a visit-free initial state
by the exposed operations, each room has at most one visit with status
in_consultation (multiple Waiting visits in one room are possible, as the
counterexample shows; in fact no handler ever produces the
in_consultation status, so the bound holds with room to spare). -/
theorem reachable_at_most_one_in_consultation {s₀ s : ClinicState}
    (h0 : s₀.visits = []) (h : Reachable s₀ s) (room_num : String) :
    inConsultInRoom s room_num ≤ 1 := by
  have hno := reachable_noInConsult h0 h
  unfold inConsultInRoom
  have hfil : (s.visits.filter fun v =>
      decide (v.room = some room_num) && decide (v.status = "in_consultation")) = [] := by
    rw [List.filter_eq_nil_iff]
    intro v hv
    simp only [Bool.and_eq_true, decide_eq_true_eq, not_and]
    intro _
    exact hno v hv
  rw [hfil]
  simp

/-- Witness for the amended C2 at a concrete reachable state. -/
theorem c2_witness :
    inConsultInRoom c2Bad "1" ≤ 1 :=
  reachable_at_most_one_in_consultation rfl
    (Relation.ReflTransGen.tail
      (Relation.ReflTransGen.tail
        (Relation.ReflTransGen.single (Step.login c2Init 1 (some "1")))
        (Step.reg_new c2Mid1 "Alice" "IC1" "30" "cough" 1 1 0))
      (Step.reg_existing c2Mid2 1 "cough again" 2 1)) "1"

/-! ### Claim C8 -/

/-- When no doctor is online with a claimed room, no room passes the
availability scan. -/
theorem find_available_room_eq_none_of_unclaimed {st : ClinicState}
    (h : ∀ u ∈ st.users, u.role = "doctor" → u.status = "online" → u.room = none) :
    find_available_room st = none := by
  unfold find_available_room
  rw [List.find?_eq_none]
  intro room_num _
  have hdoc : roomHasOnlineDoctor st room_num = false := by
    unfold roomHasOnlineDoctor
    rw [List.any_eq_false]
    intro u hu hcontra
    simp only [Bool.and_eq_true, decide_eq_true_eq] at hcontra
    obtain ⟨⟨hrole, hroom⟩, hstat⟩ := hcontra
    rw [h u hu hrole hstat] at hroom
    cases hroom
  unfold roomAvailable
  rw [hdoc]
  simp

/-- C8: registration in a state where no doctor is Online with a claimed
room creates a Queued visit with no room — both for queueing an existing
patient and (when the IC is fresh) for registering a new one. -/
theorem register_queued_when_no_claimed_doctor (st : ClinicState)
    (pid vid now : Nat) (name ic age symptom : String)
    (h : ∀ u ∈ st.users, u.role = "doctor" → u.status = "online" → u.room = none) :
    add_existing_to_queue st pid symptom vid now =
      { st with visits := st.visits ++
          [⟨vid, pid, none, now, symptom, none, "queued", none⟩] } ∧
    ((findPatientByIC st ic).isSome = false →
      register_new st name ic age symptom pid vid now =
        { st with patients := st.patients ++ [⟨pid, ic, name, age⟩],
                  visits := st.visits ++
                    [⟨vid, pid, none, now, symptom, none, "queued", none⟩] }) := by
  have hnone := find_available_room_eq_none_of_unclaimed h
  constructor
  · unfold add_existing_to_queue
    rw [hnone]
    rfl
  · intro hic
    unfold register_new
    rw [hic]
    simp only [Bool.false_eq_true, if_false]
    unfold add_existing_to_queue
    have hnone' : find_available_room
        { st with patients := st.patients ++ [⟨pid, ic, name, age⟩] } = none :=
      find_available_room_eq_none_of_unclaimed h
    rw [hnone']
    rfl

/-- Witness state for C8: one doctor online without a room, one away with a
stale room. -/
def c8State : ClinicState :=
  ⟨[⟨1, "A", "doctor", "away", some "1"⟩, ⟨2, "B", "doctor", "online", none⟩],
   [⟨1, "IC1", "P", "20"⟩], []⟩

/-- Witness for C8 at a concrete state. -/
theorem c8_witness :
    add_existing_to_queue c8State 1 "fever" 1 0 =
      { c8State with visits := [⟨1, 1, none, 0, "fever", none, "queued", none⟩] } ∧
    ((findPatientByIC c8State "IC9").isSome = false →
      register_new c8State "Q" "IC9" "40" "fever" 1 1 0 =
        { c8State with patients := c8State.patients ++ [⟨1, "IC9", "Q", "40"⟩],
                       visits := [⟨1, 1, none, 0, "fever", none, "queued", none⟩] }) :=
  register_queued_when_no_claimed_doctor c8State 1 1 0 "Q" "IC9" "40" "fever"
    (by decide)

/-! ### Claim C9 -/

/-- C9: `update_patient` on an existing IC succeeds and changes only the
patient's name and age: the visits table and users table are untouched, and
every patient keeps its identifier and IC number. -/
theorem update_patient_frame (st : ClinicState) (ic name age : String)
    (p : Patient) (h : findPatientByIC st ic = some p) :
    (update_patient st ic name age).2 = none ∧
    (update_patient st ic name age).1.visits = st.visits ∧
    (update_patient st ic name age).1.users = st.users ∧
    ((update_patient st ic name age).1.patients.map fun q => (q.id, q.ic_number)) =
      st.patients.map fun q => (q.id, q.ic_number) := by
  unfold update_patient
  rw [h]
  refine ⟨rfl, rfl, rfl, ?_⟩
  simp only [List.map_map]
  apply List.map_congr_left
  intro q _
  by_cases hq : q.ic_number = ic <;> simp [Function.comp, hq]

/-- Witness state for C9. -/
def c9State : ClinicState :=
  ⟨[], [⟨1, "IC1", "P", "20"⟩, ⟨2, "IC2", "Q", "30"⟩],
   [⟨1, 1, none, 0, "s", none, "waiting", some "1"⟩]⟩

/-- Witness for C9 at a concrete state. -/
theorem c9_witness :
    (update_patient c9State "IC1" "Renamed" "21").2 = none ∧
    (update_patient c9State "IC1" "Renamed" "21").1.visits = c9State.visits ∧
    (update_patient c9State "IC1" "Renamed" "21").1.users = c9State.users ∧
    ((update_patient c9State "IC1" "Renamed" "21").1.patients.map
        fun q => (q.id, q.ic_number)) =
      c9State.patients.map fun q => (q.id, q.ic_number) :=
  update_patient_frame c9State "IC1" "Renamed" "21" ⟨1, "IC1", "P", "20"⟩ (by decide)

/-! ### Claim C10 -/

/-- C10: `get_patient_history` returns the empty list — not a 404 — for an
IC matching no patient, and for an existing patient returns exactly one
entry per visit of that patient. -/
theorem patient_history_spec (st : ClinicState) (ic : String) :
    (findPatientByIC st ic = none → get_patient_history st ic = []) ∧
    (∀ p, findPatientByIC st ic = some p →
      (get_patient_history st ic).length = (patientVisits st p.id).length) := by
  constructor
  · intro h
    unfold get_patient_history
    rw [h]
  · intro p h
    unfold get_patient_history
    rw [h]
    simp

/-- Witness state for C10. -/
def c10State : ClinicState :=
  ⟨[], [⟨1, "IC1", "P", "20"⟩],
   [⟨1, 1, none, 0, "s", none, "waiting", some "1"⟩,
    ⟨2, 1, none, 1, "t", some "", "completed", none⟩]⟩

/-- Witness for C10 at a concrete state: unknown IC yields `[]`, and the
known patient's history has one entry per visit. -/
theorem c10_witness :
    get_patient_history c10State "zz" = [] ∧
    (get_patient_history c10State "IC1").length = (patientVisits c10State 1).length :=
  ⟨(patient_history_spec c10State "zz").1 (by decide),
   (patient_history_spec c10State "IC1").2 ⟨1, "IC1", "P", "20"⟩ (by decide)⟩

/-! ### Claim C3 -/

/-- Two online doctors; the visit sits in room "1", claimed by doctor 1. -/
def c3State : ClinicState :=
  ⟨[⟨1, "A", "doctor", "online", some "1"⟩, ⟨2, "B", "doctor", "online", some "2"⟩],
   [⟨1, "IC1", "P", "20"⟩], [⟨1, 1, none, 0, "s", none, "waiting", some "1"⟩]⟩

/-- C3 counterexample: doctor 2 claims room "2", not the visit's room "1",
yet `start_consultation` succeeds (no Unauthorized) and rebinds the visit's
doctor reference to 2 — refuting both the failure and the
leaves-unchanged parts of the claim. -/
theorem c3_counterexample :
    (∀ u ∈ c3State.users, u.id = 2 → u.room ≠ some "1") ∧
    (start_consultation c3State ⟨2, "doctor"⟩ 1).2 = none ∧
    (start_consultation c3State ⟨2, "doctor"⟩ 1).1.visits =
      [⟨1, 1, some 2, 0, "s", none, "waiting", some "1"⟩] := by decide

/-- C3 (amended): `start_consultation` checks only the session role, never
room ownership: a non-doctor caller is rejected with no change; a missing
visit 404s with no change; and ANY doctor — whether or not they claim the
visit's room — succeeds on an existing visit, binding the visit's doctor
reference to the caller and leaving every other field (status included)
unchanged. -/
theorem start_consultation_no_ownership_check (st : ClinicState)
    (sess : Session) (vid : Nat) :
    (sess.role ≠ "doctor" →
      start_consultation st sess vid = (st, some OpError.unauthorized)) ∧
    (sess.role = "doctor" → findVisit st vid = none →
      start_consultation st sess vid = (st, some OpError.not_found)) ∧
    (sess.role = "doctor" → ∀ v, findVisit st vid = some v →
      (start_consultation st sess vid).2 = none ∧
      findVisit (start_consultation st sess vid).1 vid =
        some { v with doctor_id := some sess.user_id }) := by
  refine ⟨?_, ?_, ?_⟩
  · intro hrole
    unfold start_consultation
    rw [if_pos hrole]
  · intro hrole hnone
    unfold start_consultation
    rw [if_neg (fun hne => hne hrole), hnone]
  · intro hrole v hv
    unfold start_consultation
    rw [if_neg (fun hne => hne hrole), hv]
    exact ⟨rfl, findVisit_updateVisit _ (fun _ => rfl) hv⟩

/-- Witness for the amended C3: doctor 2, who claims room "2", starts the
consultation on the visit waiting in room "1" and succeeds. -/
theorem c3_witness :
    (start_consultation c3State ⟨2, "doctor"⟩ 1).2 = none ∧
    findVisit (start_consultation c3State ⟨2, "doctor"⟩ 1).1 1 =
      some ⟨1, 1, some 2, 0, "s", none, "waiting", some "1"⟩ :=
  (start_consultation_no_ownership_check c3State ⟨2, "doctor"⟩ 1).2.2 rfl
    ⟨1, 1, none, 0, "s", none, "waiting", some "1"⟩ (by decide)

/-! ### Claim C4 -/

/-- The room's own doctor and a waiting visit in that room. -/
def c4State : ClinicState :=
  ⟨[⟨1, "D", "doctor", "online", some "1"⟩], [⟨1, "IC1", "P", "20"⟩],
   [⟨1, 1, none, 0, "cough", none, "waiting", some "1"⟩]⟩

/-- C4 failing input evaluated: doctor 1 claims room "1" and starts the
consultation on the waiting visit in room "1"; the handler succeeds and
binds the doctor reference, but the visit's status REMAINS "waiting" — the
handler never writes "in_consultation", although `find_available_room`,
the room board and the room-details view all query for that status. -/
theorem c4_start_leaves_status_waiting :
    (start_consultation c4State ⟨1, "doctor"⟩ 1).2 = none ∧
    findVisit (start_consultation c4State ⟨1, "doctor"⟩ 1).1 1 =
      some ⟨1, 1, some 1, 0, "cough", none, "waiting", some "1"⟩ := by decide

/-! ### Claim C5 -/

/-- A visit already in the terminal status "cancelled". -/
def c5State : ClinicState :=
  ⟨[], [⟨1, "IC1", "P", "20"⟩], [⟨1, 1, none, 0, "s", none, "cancelled", some "1"⟩]⟩

/-- C5 counterexample: finalizing a cancelled visit does NOT fail with
InvalidTransition — it succeeds, stores the note, and overwrites the
terminal status with "completed". -/
theorem c5_counterexample :
    (save_consultation c5State 1 (some "late note") "finalize").2 = none ∧
    (save_consultation c5State 1 (some "late note") "finalize").1.visits =
      [⟨1, 1, none, 0, "s", some "late note", "completed", some "1"⟩] := by decide

/-- C5 (amended): `save_consultation` performs no status check at all: a
missing visit 404s with no change, and on ANY existing visit — whatever its
current status, terminal included — it stores the note and sets the status
to "completed" exactly when the action is "finalize" (otherwise the status
is kept). -/
theorem save_consultation_ignores_status (st : ClinicState) (vid : Nat)
    (note : Option String) (action : String) :
    (findVisit st vid = none →
      save_consultation st vid note action = (st, some OpError.not_found)) ∧
    (∀ v, findVisit st vid = some v →
      (save_consultation st vid note action).2 = none ∧
      findVisit (save_consultation st vid note action).1 vid =
        some { v with soap_note := note,
                      status := if action = "finalize" then "completed" else v.status }) := by
  constructor
  · intro h
    unfold save_consultation
    rw [h]
  · intro v hv
    unfold save_consultation
    rw [hv]
    exact ⟨rfl, findVisit_updateVisit _ (fun _ => rfl) hv⟩

/-- Witness for the amended C5: the cancelled visit is finalized into
status "completed" with the note stored. -/
theorem c5_witness :
    (save_consultation c5State 1 (some "late note") "finalize").2 = none ∧
    findVisit (save_consultation c5State 1 (some "late note") "finalize").1 1 =
      some ⟨1, 1, none, 0, "s", some "late note", "completed", some "1"⟩ :=
  (save_consultation_ignores_status c5State 1 (some "late note") "finalize").2
    ⟨1, 1, none, 0, "s", none, "cancelled", some "1"⟩ (by decide)

/-! ### Claim C6 -/

/-- Primary-key lookup after `setUser` at the same key yields the updated
row, provided the update preserves the key. -/
theorem findUserById_setUser {st : ClinicState} {uid : Nat} {u : User}
    (f : User → User) (hf : ∀ w, (f w).id = w.id)
    (h : findUserById st uid = some u) :
    findUserById (setUser st uid f) uid = some (f u) := by
  unfold findUserById setUser at *
  have hv : u.id = uid := by
    have := List.find?_some h
    simpa using this
  have hcomp : ((fun w : User => decide (w.id = uid)) ∘
      fun w => if w.id = uid then f w else w) = fun w : User => decide (w.id = uid) := by
    funext w
    by_cases hw : w.id = uid <;> simp [hw, hf]
  rw [List.find?_map, hcomp, h]
  simp [hv]

/-- Applying the same key-preserving idempotent row update twice is the
same as applying it once. -/
theorem setUser_setUser (st : ClinicState) (uid : Nat) (f : User → User)
    (hf : ∀ w, (f w).id = w.id) (hff : ∀ w, f (f w) = f w) :
    setUser (setUser st uid f) uid f = setUser st uid f := by
  unfold setUser
  dsimp only
  rw [List.map_map]
  have hcomp : ((fun w : User => if w.id = uid then f w else w) ∘
      fun w => if w.id = uid then f w else w) =
      fun w : User => if w.id = uid then f w else w := by
    funext w
    by_cases hw : w.id = uid
    · simp [Function.comp, hw, hf, hff]
    · simp [Function.comp, hw]
  rw [hcomp]

/-- A doctor online in room "3". -/
def c6State : ClinicState := ⟨[⟨1, "A", "doctor", "online", some "3"⟩], [], []⟩

/-- C6 counterexample: `toggle_status` (the doctor-dashboard SetAway) sets
the presence to "away" but leaves the claimed room "3" in place, refuting
"sets presence to Away AND clears the claimed room". -/
theorem c6_counterexample :
    (toggle_status c6State ⟨1, "doctor"⟩ "away").2 = none ∧
    (toggle_status c6State ⟨1, "doctor"⟩ "away").1.users =
      [⟨1, "A", "doctor", "away", some "3"⟩] := by decide

/-- C6 (amended): the two SetAway implementations differ. `toggle_status`
sets the caller's presence to "away" but leaves every user's claimed room
(and all other fields) unchanged; `logout` sets presence to "away" AND
clears the claimed room. Both are idempotent. -/
theorem setAway_variants (st : ClinicState) (sess : Session) (uid : Nat) (u : User) :
    (sess.role = "doctor" →
      (toggle_status st sess "away").2 = none ∧
      ((toggle_status st sess "away").1.users.map fun w => (w.id, w.name, w.role, w.room)) =
        (st.users.map fun w => (w.id, w.name, w.role, w.room)) ∧
      (∀ w ∈ (toggle_status st sess "away").1.users,
        w.id = sess.user_id → w.status = "away") ∧
      toggle_status (toggle_status st sess "away").1 sess "away" =
        toggle_status st sess "away") ∧
    (findUserById st uid = some u → u.role = "doctor" →
      ((logout st uid).users.map fun w => (w.id, w.name, w.role)) =
        (st.users.map fun w => (w.id, w.name, w.role)) ∧
      (∀ w ∈ (logout st uid).users, w.id = uid → w.status = "away" ∧ w.room = none) ∧
      logout (logout st uid) uid = logout st uid) := by
  constructor
  · intro hrole
    have hred : toggle_status st sess "away" =
        (setUser st sess.user_id fun w => { w with status := "away" }, none) := by
      unfold toggle_status
      rw [if_neg (fun hne => hne hrole)]
    refine ⟨by rw [hred], ?_, ?_, ?_⟩
    · rw [hred]
      unfold setUser
      dsimp only
      rw [List.map_map]
      apply List.map_congr_left
      intro w _
      by_cases hw : w.id = sess.user_id <;> simp [Function.comp, hw]
    · rw [hred]
      unfold setUser
      dsimp only
      intro w hw hwid
      obtain ⟨x, hx, rfl⟩ := List.mem_map.mp hw
      by_cases hxid : x.id = sess.user_id
      · simp [hxid]
      · rw [if_neg hxid] at hwid ⊢
        exact absurd hwid hxid
    · rw [hred]
      unfold toggle_status
      rw [if_neg (fun hne => hne hrole)]
      dsimp only
      rw [setUser_setUser st sess.user_id
        (fun w => { w with status := "away" }) (fun _ => rfl) (fun _ => rfl)]
  · intro h hrole
    have hred : logout st uid =
        setUser st uid fun w => { w with status := "away", room := none } := by
      unfold logout
      rw [h]
      dsimp only
      rw [if_pos hrole]
    refine ⟨?_, ?_, ?_⟩
    · rw [hred]
      unfold setUser
      dsimp only
      rw [List.map_map]
      apply List.map_congr_left
      intro w _
      by_cases hw : w.id = uid <;> simp [Function.comp, hw]
    · rw [hred]
      unfold setUser
      dsimp only
      intro w hw hwid
      obtain ⟨x, hx, rfl⟩ := List.mem_map.mp hw
      by_cases hxid : x.id = uid
      · simp [hxid]
      · rw [if_neg hxid] at hwid ⊢
        exact absurd hwid hxid
    · rw [hred]
      have hfind := findUserById_setUser
        (fun w => { w with status := "away", room := none }) (fun _ => rfl) h
      unfold logout
      rw [hfind]
      dsimp only
      rw [if_pos hrole]
      exact setUser_setUser st uid _ (fun _ => rfl) (fun _ => rfl)

/-- Witness for the amended C6 at a concrete state: both SetAway variants
behave as the amended claim says on the doctor online in room "3". -/
theorem c6_witness :
    ((toggle_status c6State ⟨1, "doctor"⟩ "away").2 = none ∧
     ((toggle_status c6State ⟨1, "doctor"⟩ "away").1.users.map
        fun w => (w.id, w.name, w.role, w.room)) =
       (c6State.users.map fun w => (w.id, w.name, w.role, w.room)) ∧
     (∀ w ∈ (toggle_status c6State ⟨1, "doctor"⟩ "away").1.users,
       w.id = 1 → w.status = "away") ∧
     toggle_status (toggle_status c6State ⟨1, "doctor"⟩ "away").1 ⟨1, "doctor"⟩ "away" =
       toggle_status c6State ⟨1, "doctor"⟩ "away") ∧
    (((logout c6State 1).users.map fun w => (w.id, w.name, w.role)) =
       (c6State.users.map fun w => (w.id, w.name, w.role)) ∧
     (∀ w ∈ (logout c6State 1).users, w.id = 1 → w.status = "away" ∧ w.room = none) ∧
     logout (logout c6State 1) 1 = logout c6State 1) :=
  ⟨(setAway_variants c6State ⟨1, "doctor"⟩ 1 ⟨1, "A", "doctor", "online", some "3"⟩).1 rfl,
   (setAway_variants c6State ⟨1, "doctor"⟩ 1 ⟨1, "A", "doctor", "online", some "3"⟩).2
     (by decide) rfl⟩

/-! ### Claim C7 -/

/-- Doctor 1 is away but still records a stale claim on room "1" (reachable
via `toggle_status`, which does not clear the room); doctor 2 is online in
room "1". -/
def c7State : ClinicState :=
  ⟨[⟨1, "A", "doctor", "away", some "1"⟩, ⟨2, "B", "doctor", "online", some "1"⟩],
   [], []⟩

/-- C7 counterexample: doctor 1 logs in selecting room "1" while DIFFERENT
online doctor 2 already claims it, yet the login succeeds (no RoomConflict)
and both doctors end up online claiming room "1": the occupant query runs
after the caller's own pending online write (autoflush) and finds the
caller's stale row first, and `occupant.id != user.id` then passes. -/
theorem c7_counterexample :
    (∃ u ∈ c7State.users, u.id ≠ 1 ∧ u.role = "doctor" ∧ u.status = "online" ∧
      u.room = some "1") ∧
    (login_doctor c7State 1 (some "1")).2 = none ∧
    (login_doctor c7State 1 (some "1")).1.users =
      [⟨1, "A", "doctor", "online", some "1"⟩, ⟨2, "B", "doctor", "online", some "1"⟩] := by
  decide

/-- C7 (amended): when the calling doctor's own rows do not record the
requested room (so their pending online write cannot satisfy the occupant
query) and a different Online doctor claims that room, the login fails with
RoomConflict and the persisted state is exactly the pre-call state — no
partial effect. -/
theorem login_room_conflict (st : ClinicState) (uid : Nat) (r : String)
    (hself : ∀ u ∈ st.users, u.id = uid → u.room ≠ some r)
    (hocc : ∃ u ∈ st.users, u.id ≠ uid ∧ u.role = "doctor" ∧
      u.status = "online" ∧ u.room = some r) :
    login_doctor st uid (some r) = (st, some OpError.room_conflict) := by
  obtain ⟨u, hu, hne, hrole, hstat, hroom⟩ := hocc
  unfold login_doctor setUser
  dsimp only
  split
  · rename_i occ heq
    have hpred := List.find?_some heq
    have hmem := List.mem_of_find?_eq_some heq
    simp only [Bool.and_eq_true, decide_eq_true_eq] at hpred
    obtain ⟨⟨hoccroom, hoccrole⟩, hoccstat⟩ := hpred
    obtain ⟨w, hw, hweq⟩ := List.mem_map.mp hmem
    have hoccid : occ.id ≠ uid := by
      by_cases hwid : w.id = uid
      · exfalso
        have hwr : occ.room = w.room := by
          rw [← hweq, if_pos hwid]
        exact hself w hw hwid (by rw [← hwr]; exact hoccroom)
      · rw [← hweq, if_neg hwid]
        exact hwid
    rw [if_pos hoccid]
  · rename_i heq
    exfalso
    rw [List.find?_eq_none] at heq
    have hmem : u ∈ List.map
        (fun w => if w.id = uid then { w with status := "online" } else w) st.users :=
      List.mem_map.mpr ⟨u, hu, by rw [if_neg hne]⟩
    exact heq u hmem (by simp [hroom, hrole, hstat])

/-- Doctor 1 has no stale claim; doctor 2 is online in room "1". -/
def c7WitnessState : ClinicState :=
  ⟨[⟨1, "A", "doctor", "away", none⟩, ⟨2, "B", "doctor", "online", some "1"⟩],
   [], []⟩

/-- Witness for the amended C7: the login is refused with RoomConflict and
the persisted state is unchanged. -/
theorem c7_witness :
    login_doctor c7WitnessState 1 (some "1") =
      (c7WitnessState, some OpError.room_conflict) :=
  login_room_conflict c7WitnessState 1 "1" (by decide) (by decide)

/-! ### Claim C1 -/

/-- Doctors online in rooms "1" and "2"; room "1" already holds one Waiting
visit, room "2" holds none. -/
def c1State : ClinicState :=
  ⟨[⟨1, "A", "doctor", "online", some "1"⟩, ⟨2, "B", "doctor", "online", some "2"⟩],
   [⟨1, "IC1", "P", "20"⟩], [⟨1, 1, none, 0, "s", none, "waiting", some "1"⟩]⟩

/-- C1 counterexample: registration routes the new visit to room "1"
(waitingCount 1) although room "2" is also claimed by an online doctor with
waitingCount 0 — the code never computes waiting counts, so the chosen room
is NOT the arg-min of `waitingCount`. -/
theorem c1_counterexample :
    roomHasOnlineDoctor c1State "2" = true ∧
    roomHasActiveConsultation c1State "2" = false ∧
    waitingCount c1State "2" < waitingCount c1State "1" ∧
    (add_existing_to_queue c1State 1 "cough" 2 1).visits =
      c1State.visits ++ [⟨2, 1, none, 1, "cough", none, "waiting", some "1"⟩] := by
  decide

/-- C1 (amended): when at least one of rooms 1..10 has an Online claiming
doctor and no in_consultation visit, registration creates a Waiting visit
whose room is the SMALLEST-numbered such room, irrespective of how many
Waiting visits the rooms already hold; rooms whose current visit is
in_consultation are excluded from selection. -/
theorem register_routes_to_first_available_room (st : ClinicState)
    (pid : Nat) (symptom : String) (vid now : Nat)
    (h : ∃ n, n ∈ List.range' 1 10 ∧ roomAvailable st (toString n) = true) :
    ∃ m, m ∈ List.range' 1 10 ∧ roomAvailable st (toString m) = true ∧
      (∀ k, k ∈ List.range' 1 10 → k < m → roomAvailable st (toString k) = false) ∧
      add_existing_to_queue st pid symptom vid now =
        { st with visits := st.visits ++
            [⟨vid, pid, none, now, symptom, none, "waiting", some (toString m)⟩] } := by
  obtain ⟨n, hn, hq⟩ := h
  have hsome : ((List.range' 1 10).find? fun k => roomAvailable st (toString k)).isSome := by
    rw [List.find?_isSome]
    exact ⟨n, hn, hq⟩
  obtain ⟨m, hm⟩ := Option.isSome_iff_exists.mp hsome
  obtain ⟨h1, h2, h3⟩ := find?_range'_eq_some hm
  refine ⟨m, h2, h1, h3, ?_⟩
  have hfar : find_available_room st = some (toString m) := by
    rw [find_available_room_eq_map, hm]
    rfl
  unfold add_existing_to_queue
  rw [hfar]
  rfl

/-- Doctor online claiming room "2" only. -/
def c1WitnessState : ClinicState :=
  ⟨[⟨1, "A", "doctor", "online", some "2"⟩], [⟨1, "IC1", "P", "20"⟩], []⟩

/-- Witness for the amended C1: with only room "2" available, registration
creates a Waiting visit in room "2" (the least available room). -/
theorem c1_witness :
    ∃ m, m ∈ List.range' 1 10 ∧ roomAvailable c1WitnessState (toString m) = true ∧
      (∀ k, k ∈ List.range' 1 10 → k < m →
        roomAvailable c1WitnessState (toString k) = false) ∧
      add_existing_to_queue c1WitnessState 1 "cough" 1 0 =
        { c1WitnessState with visits := c1WitnessState.visits ++
            [⟨1, 1, none, 0, "cough", none, "waiting", some (toString m)⟩] } :=
  register_routes_to_first_available_room c1WitnessState 1 "cough" 1 0
    ⟨2, by decide, by decide⟩

end Clinic
